import Mathlib

/-!
Mass Follow Detector — verification of the classifier.

Shallow embedding of the single-module JavaScript program
(`analyzeRatio`, `analyzeFollowBack`, `generateMessage`,
`isOnWallOfShame`, the `THRESHOLDS` table and the CLI wrapper),
together with theorems settling the specification claims.

JavaScript numbers are modelled as `JSNum`: either `nan` or a rational
value.  Every comparison operator of the source is embedded as a
`Bool`-valued function that is `false` whenever either side is `nan`,
matching the IEEE comparison semantics JavaScript inherits.
-/

/-- A JavaScript number as the program observes it: `NaN`, or a finite
numeric value (modelled exactly with a rational). -/
inductive JSNum where
  | nan : JSNum
  | num (q : ℚ) : JSNum
deriving DecidableEq, Repr

open JSNum

/-- JavaScript `<`: false when either operand is `NaN`. -/
def jsLt : JSNum → JSNum → Bool
  | num a, num b => decide (a < b)
  | _, _ => false

/-- JavaScript `>`: false when either operand is `NaN`. -/
def jsGt : JSNum → JSNum → Bool
  | num a, num b => decide (b < a)
  | _, _ => false

/-- JavaScript `>=`: false when either operand is `NaN`. -/
def jsGe : JSNum → JSNum → Bool
  | num a, num b => decide (b ≤ a)
  | _, _ => false

/-- JavaScript division, on the fragment the program reaches: the source
divides only under a `followers > 0` guard, so both operands are finite
and the divisor is nonzero; any other combination is sent to `nan`. -/
def jsDiv : JSNum → JSNum → JSNum
  | num a, num b => if b = 0 then nan else num (a / b)
  | _, _ => nan

/-- The `THRESHOLDS` constant table of the module. -/
structure Thresholds where
  SUSPICIOUS : ℚ
  LIKELY : ℚ
  OBVIOUS : ℚ
  ABSURD : ℚ
  LEGENDARY : ℚ
deriving DecidableEq, Repr

def THRESHOLDS : Thresholds :=
  { SUSPICIOUS := 1000, LIKELY := 5000, OBVIOUS := 10000,
    ABSURD := 25000, LEGENDARY := 50000 }

/-- Decimal digits of a natural number, most significant first, via a
fuel-indexed loop (`fuel = n + 1` always suffices and keeps the
definition structurally recursive, hence kernel-evaluable). -/
def natDigitsAux : ℕ → ℕ → List Char
  | 0, _ => []
  | fuel + 1, n =>
    if n < 10 then [Nat.digitChar n]
    else natDigitsAux fuel (n / 10) ++ [Nat.digitChar (n % 10)]

/-- Decimal digit characters of `n`, most significant first. -/
def natDigits (n : ℕ) : List Char :=
  natDigitsAux (n + 1) n

/-- Insert a comma after every third character of a reversed digit
list: the grouping step of `toLocaleString`. -/
def groupRev : List Char → List Char
  | a :: b :: c :: d :: rest => a :: b :: c :: ',' :: groupRev (d :: rest)
  | l => l

/-- Thousands grouping of a digit list (most significant first). -/
def commaGroup (l : List Char) : List Char :=
  (groupRev l.reverse).reverse

/-- Model of `Number.prototype.toLocaleString` under the default `en-US` locale,
modelled on the values the program formats: `NaN` renders as `"NaN"`,
and a numeric value renders its integer part in comma-separated
thousands groups with a leading sign.  The integer part of the
magnitude `|num|/den` is computed by natural division on the canonical
fields.  (For a non-integral value the host would append up to three
rounded fraction digits; no claim and no reachable call site formats a
non-integral count, so the fraction digits are omitted.) -/
def jsToLocaleString : JSNum → String
  | nan => "NaN"
  | num q =>
    let intMag : ℕ := (if q.num < 0 then -q.num else q.num).toNat / q.den
    if q.num < 0 then String.mk ('-' :: commaGroup (natDigits intMag))
    else String.mk (commaGroup (natDigits intMag))

/-- Exponential `toString` of a whole-number magnitude of at least `10^21`:
exponential form `d[.ddd]e+NN` built from the decimal digits with
trailing zeros trimmed (exact for the values arising here). -/
def jsBigRepr (k : ℕ) : List Char :=
  let ds := natDigits k
  let e := ds.length - 1
  match (ds.reverse.dropWhile (· == '0')).reverse with
  | [] => ['0']
  | [c] => c :: 'e' :: '+' :: natDigits e
  | c :: rest => c :: '.' :: rest ++ 'e' :: '+' :: natDigits e

/-- Model of `Number.prototype.toFixed(2)` per ECMA-262: `NaN` gives `"NaN"`;
for a finite value the sign is peeled off, a magnitude of `10^21` or
more falls back to `toString` (exponential form), and otherwise the
magnitude is rounded half-up to an integer count `n` of hundredths and
printed as `⟨digits of n / 100⟩ '.' ⟨two digits of n % 100⟩`.

The arithmetic is carried out on the canonical fields of the rational:
with magnitude `a = m / den` (`m = |num|`), the test `10^21 ≤ a` is
`10^21 * den ≤ m`, and the hundredths count `⌊100 * a + 1/2⌋` is
`(200 * m + den) / (2 * den)` by natural floor division. -/
def toFixed2 : JSNum → String
  | nan => "NaN"
  | num q =>
    let s : List Char := if q.num < 0 then ['-'] else []
    let m : ℕ := (if q.num < 0 then -q.num else q.num).toNat
    if 1000000000000000000000 * q.den ≤ m then
      String.mk (s ++ jsBigRepr (m / q.den))
    else
      let n : ℕ := (200 * m + q.den) / (2 * q.den)
      String.mk (s ++ natDigits (n / 100) ++
        '.' :: [Nat.digitChar (n / 10 % 10), Nat.digitChar (n % 10)])

/-- The record `analyzeRatio` returns.  The `timestamp` field is the
capture-time ISO string; the embedding threads the current time in as
the explicit argument `now`. -/
structure RatioAnalysis where
  following : JSNum
  followers : JSNum
  ratio : String
  verdict : String
  description : String
  recommendation : String
  shame : Bool
  timestamp : String
deriving DecidableEq, Repr

/-- The ratio expression of the source,
`followers > 0 ? following / followers : following`. -/
def ratioVal (following followers : JSNum) : JSNum :=
  if jsGt followers (num 0) then jsDiv following followers else following

/-- Embedding of `analyzeRatio(following, followers)` from the source: ratio by
guarded division, verdict/description/recommendation by the threshold
ladder, `shame = following >= THRESHOLDS.SUSPICIOUS`. -/
def analyzeRatio (following followers : JSNum) (now : String) : RatioAnalysis :=
  let ratio := ratioVal following followers
  let vdr : String × String × String :=
    if jsLt following (num THRESHOLDS.SUSPICIOUS) then
      ("NORMAL", "A regular human being. Refreshing.",
        "None needed. You are doing fine.")
    else if jsLt following (num THRESHOLDS.LIKELY) then
      ("SUSPICIOUS", "Either very social or very desperate.",
        "Consider touching grass.")
    else if jsLt following (num THRESHOLDS.OBVIOUS) then
      ("LIKELY_MASS_FOLLOWER", "You know what you did.",
        "The unfollow button exists. Use it.")
    else if jsLt following (num THRESHOLDS.ABSURD) then
      ("MASS_FOLLOWER", "Quantity over quality, embodied.",
        "This is a cry for help, isn't it?")
    else if jsLt following (num THRESHOLDS.LEGENDARY) then
      ("EGREGIOUS_MASS_FOLLOWER", "At what cost? FOR WHAT?",
        "Log off. Forever. Please.")
    else
      ("LEGENDARY_MASS_FOLLOWER",
        "You've achieved something. Not something good, but something.",
        "Frame this. Put it on your wall. Tell your grandchildren.")
  { following := following
    followers := followers
    ratio := toFixed2 ratio
    verdict := vdr.1
    description := vdr.2.1
    recommendation := vdr.2.2
    shame := jsGe following (num THRESHOLDS.SUSPICIOUS)
    timestamp := now }

/-- The record `analyzeFollowBack` returns. -/
structure FollowBackAnalysis where
  verdict : String
  description : String
  recommendation : String
deriving DecidableEq, Repr

/-- Embedding of `analyzeFollowBack` from the source: two early returns under the
`theirFollowing > THRESHOLDS.SUSPICIOUS` guard, then the genuine
default. -/
def analyzeFollowBack (theyFollowYou : Bool) (theirFollowing : JSNum)
    (youFollowedBack theyStillFollowYou : Bool) : FollowBackAnalysis :=
  if jsGt theirFollowing (num THRESHOLDS.SUSPICIOUS) &&
      (theyFollowYou && !youFollowedBack && !theyStillFollowYou) then
    { verdict := "CLASSIC_FOLLOW_UNFOLLOW"
      description := "They followed you, you didn't follow back, they unfollowed. Tale as old as time."
      recommendation := "You dodged a bullet. Their feed is chaos anyway." }
  else if jsGt theirFollowing (num THRESHOLDS.SUSPICIOUS) &&
      (theyFollowYou && youFollowedBack) then
    { verdict := "THEY_GOT_YOU"
      description := "You fell for it. It's okay, we all have."
      recommendation := "Consider unfollowing. They won't notice." }
  else
    { verdict := "SEEMS_GENUINE"
      description := "Possibly a real connection. Rare but beautiful."
      recommendation := "Cherish this. It's uncommon." }

/-- Embedding of `generateMessage`, with the non-seeded uniform random draw
`Math.floor(Math.random() * messages.length)` injected as the explicit
index `idx : Fin 5`. -/
def generateMessage (following : JSNum) (idx : Fin 5) : String :=
  if jsLt following (num THRESHOLDS.SUSPICIOUS) then
    "You seem normal. This tool isn't for you."
  else
    let s := jsToLocaleString following
    let messages : List String :=
      ["Following " ++ s ++ " accounts? That's not networking, that's hoarding.",
        s ++ " follows. Do you even remember who they are?",
        "With " ++ s ++ " follows, your feed must be pure noise.",
        s ++ ". That's not a following list, that's a phone book.",
        "Imagine clicking follow " ++ s ++ " times. The dedication to mediocrity."]
    messages.get ⟨idx.1, idx.2⟩

/-- The `WALL_OF_SHAME` constant: intentionally the empty list. -/
def WALL_OF_SHAME : List String := []

/-- Embedding of `isOnWallOfShame`: constant `false`, the list is never consulted. -/
def isOnWallOfShame (username : String) : Bool :=
  false

/-- Conversion `Number(...)` of a CLI argument, modelled on the
fragment the claims exercise: a nonempty string of decimal digits
parses to that natural number, anything else is treated as `NaN`
(non-numeric text indeed yields `NaN` in the host; signs, fractions,
exponents and the empty string do not occur in any claim). -/
def jsNumber (s : String) : JSNum :=
  if s ≠ "" ∧ s.data.all Char.isDigit then
    num ((s.data.foldl (fun n c => 10 * n + (c.toNat - 48)) 0 : ℕ) : ℚ)
  else nan

/-- The 50-character `=` separator line of the report. -/
def sepLine : String := String.mk (List.replicate 50 '=')

/-- The usage text printed when fewer than two arguments are given. -/
def usageLines : List String :=
  ["Usage: node index.js <following> <followers>",
    "Example: node index.js 47832 523",
    "",
    "Or just accept that if you're running this, you already know."]

/-- The `require.main` CLI block: given the positional arguments, the
capture time and the injected random index, returns the process exit
status and the lines written to standard output.  Fewer than two
arguments print the usage text and exit `1`; otherwise the report is
printed (plus the shame message when `result.shame`) and the process
ends with the implicit status `0`. -/
def cli (args : List String) (now : String) (idx : Fin 5) : ℕ × List String :=
  match args with
  | a0 :: a1 :: _ =>
    let following := jsNumber a0
    let followers := jsNumber a1
    let result := analyzeRatio following followers now
    let report : List String :=
      ["", sepLine, "MASS FOLLOW ANALYSIS REPORT", sepLine, "",
        "Following: " ++ jsToLocaleString following,
        "Followers: " ++ jsToLocaleString followers,
        "Ratio: " ++ result.ratio, "",
        "Verdict: " ++ result.verdict,
        result.description, "",
        "Recommendation: " ++ result.recommendation, "",
        sepLine]
    (0, report ++ if result.shame then ["", generateMessage following idx] else [])
  | _ => (1, usageLines)

/-- Does a string have exactly two digits after a (unique) decimal
point?  Checked from the right: the third-from-last character is `'.'`,
the last two are digits, and no earlier character is a dot. -/
def isTwoFrac (s : String) : Bool :=
  match s.data.reverse with
  | c :: b :: d :: rest => (d == '.') && b.isDigit && c.isDigit && !(rest.contains '.')
  | _ => false

/-- Reference verdict table for `analyzeFollowBack`, written from the
specification's words: first rule `theirFollowing > 1000` with
follow-no-backfollow-unfollow, second rule `theirFollowing > 1000`
with a follow-back (regardless of `theyStillFollowYou`), default
genuine. -/
def followBackVerdictSpec (theyFollowYou : Bool) (theirFollowing : JSNum)
    (youFollowedBack theyStillFollowYou : Bool) : String :=
  if jsGt theirFollowing (num 1000) &&
      (theyFollowYou && !youFollowedBack && !theyStillFollowYou) then
    "CLASSIC_FOLLOW_UNFOLLOW"
  else if jsGt theirFollowing (num 1000) && (theyFollowYou && youFollowedBack) then
    "THEY_GOT_YOU"
  else
    "SEEMS_GENUINE"

/-- Sanity check: the report example of the source at 47832/523. -/
theorem sanity_example_verdict :
    (analyzeRatio (num 47832) (num 523) "t").verdict = "EGREGIOUS_MASS_FOLLOWER" := by
  decide

/-- Sanity check: zero followers format the raw count. -/
theorem sanity_ratio_zero_followers :
    (analyzeRatio (num 1000) (num 0) "t").ratio = "1000.00" := by decide

/-- Sanity check: the exponential fallback of `toFixed`. -/
theorem sanity_toFixed_big : toFixed2 (num 1000000000000000000000) = "1e+21" := by decide

/-- Sanity check: thousands grouping. -/
theorem sanity_locale_grouping : jsToLocaleString (num 2000) = "2,000" := by decide

/-- Sanity check: the CLI succeeds on two arguments. -/
theorem sanity_cli_two_args : (cli ["47832", "523"] "t" ⟨0, by decide⟩).1 = 0 := by
  decide

/-- The verdict the threshold ladder assigns, as a nested conditional
on the rational value of `following`. -/
lemma analyzeRatio_verdict (q : ℚ) (fw : JSNum) (now : String) :
    (analyzeRatio (num q) fw now).verdict =
      if q < 1000 then "NORMAL"
      else if q < 5000 then "SUSPICIOUS"
      else if q < 10000 then "LIKELY_MASS_FOLLOWER"
      else if q < 25000 then "MASS_FOLLOWER"
      else if q < 50000 then "EGREGIOUS_MASS_FOLLOWER"
      else "LEGENDARY_MASS_FOLLOWER" := by
  simp only [analyzeRatio, jsLt, THRESHOLDS, decide_eq_true_eq]
  split_ifs <;> rfl

/-- The shame flag is the comparison `following >= 1000` on the value. -/
lemma analyzeRatio_shame (q : ℚ) (fw : JSNum) (now : String) :
    (analyzeRatio (num q) fw now).shame = decide (1000 ≤ q) := rfl

/-- C1. For every following count, `analyzeRatio` assigns the
verdict by half-open intervals on `following`: `[0,1000)` NORMAL,
`[1000,5000)` SUSPICIOUS, `[5000,10000)` LIKELY_MASS_FOLLOWER,
`[10000,25000)` MASS_FOLLOWER, `[25000,50000)` EGREGIOUS_MASS_FOLLOWER
and `[50000,∞)` LEGENDARY_MASS_FOLLOWER; each boundary value falls
into the higher verdict. -/
theorem ratio_verdict_intervals (q : ℚ) (fw : JSNum) (now : String) :
    (0 ≤ q → q < 1000 → (analyzeRatio (num q) fw now).verdict = "NORMAL") ∧
    (1000 ≤ q → q < 5000 → (analyzeRatio (num q) fw now).verdict = "SUSPICIOUS") ∧
    (5000 ≤ q → q < 10000 →
      (analyzeRatio (num q) fw now).verdict = "LIKELY_MASS_FOLLOWER") ∧
    (10000 ≤ q → q < 25000 →
      (analyzeRatio (num q) fw now).verdict = "MASS_FOLLOWER") ∧
    (25000 ≤ q → q < 50000 →
      (analyzeRatio (num q) fw now).verdict = "EGREGIOUS_MASS_FOLLOWER") ∧
    (50000 ≤ q →
      (analyzeRatio (num q) fw now).verdict = "LEGENDARY_MASS_FOLLOWER") := by
  rw [analyzeRatio_verdict q fw now]
  refine ⟨fun _ h => ?_, fun h1 h2 => ?_, fun h1 h2 => ?_, fun h1 h2 => ?_,
    fun h1 h2 => ?_, fun h1 => ?_⟩ <;>
    · split_ifs <;> first | rfl | linarith

/-- Witness for C1 at the boundary value 1000. -/
theorem ratio_verdict_intervals_witness :
    (1000 : ℚ) ≤ 1000 ∧ (1000 : ℚ) < 5000 ∧
      (analyzeRatio (num 1000) (num 0) "t").verdict = "SUSPICIOUS" :=
  ⟨by norm_num, by norm_num,
    (ratio_verdict_intervals 1000 (num 0) "t").2.1 (by norm_num) (by norm_num)⟩

/-- C2. `analyzeFollowBack` agrees with the reference definition
from the specification on every input: the follow-unfollow rule, then
the follow-back rule (regardless of `theyStillFollowYou`), then the
genuine default — in particular every input with
`theirFollowing <= 1000` is SEEMS_GENUINE. -/
theorem analyzeFollowBack_eq_referenceDef (a : Bool) (b : JSNum) (c d : Bool) :
    (analyzeFollowBack a b c d).verdict = followBackVerdictSpec a b c d := by
  cases b with
  | nan => cases a <;> cases c <;> cases d <;> rfl
  | num q =>
    cases a <;> cases c <;> cases d <;>
      cases h : decide ((1000 : ℚ) < q) <;>
        simp [analyzeFollowBack, followBackVerdictSpec, jsGt, THRESHOLDS, h]

/-- C4. The returned record has `shame = (following >= 1000)`: the
flag is literally that comparison on any input (false on `NaN`), and
for a numeric following it is true exactly when `1000 ≤ following`. -/
theorem shame_iff_threshold :
    (∀ (f fw : JSNum) (now : String),
        (analyzeRatio f fw now).shame = jsGe f (num 1000)) ∧
    (∀ (q : ℚ) (fw : JSNum) (now : String),
        ((analyzeRatio (num q) fw now).shame = true ↔ 1000 ≤ q)) := by
  refine ⟨fun f fw now => rfl, fun q fw now => ?_⟩
  rw [analyzeRatio_shame]
  exact decide_eq_true_iff

/-- C5. With `following = NaN` every threshold comparison is false,
so `analyzeRatio` falls through to the final branch and returns the
verdict LEGENDARY_MASS_FOLLOWER. -/
theorem nan_falls_to_legendary :
    (∀ (t : JSNum), jsLt nan t = false) ∧
    (∀ (fw : JSNum) (now : String),
        (analyzeRatio nan fw now).verdict = "LEGENDARY_MASS_FOLLOWER") := by
  refine ⟨fun t => ?_, fun fw now => rfl⟩
  cases t <;> rfl

/-- C9. `isOnWallOfShame` is constantly false and the
`WALL_OF_SHAME` list is empty. -/
theorem wall_of_shame_empty :
    (∀ s : String, isOnWallOfShame s = false) ∧ WALL_OF_SHAME = [] :=
  ⟨fun _ => rfl, rfl⟩

/-- C3. With zero followers the guarded ratio expression never
divides: its value is `following` itself, and the `ratio` field is
that value formatted to two decimals; with positive followers the
value is the quotient `following / followers`. -/
theorem ratio_zero_followers_no_div (f : JSNum) (p q : ℚ) (now : String) :
    (ratioVal f (num 0) = f) ∧
    ((analyzeRatio f (num 0) now).ratio = toFixed2 f) ∧
    (0 < q → ratioVal (num p) (num q) = num (p / q)) := by
  refine ⟨rfl, rfl, fun hq => ?_⟩
  simp [ratioVal, jsGt, jsDiv, hq, ne_of_gt hq]

/-- Witness for C3: `6 / 2` with positive followers, and the zero
case at `following = 7`. -/
theorem ratio_zero_followers_no_div_witness :
    (0 : ℚ) < 2 ∧ ratioVal (num 6) (num 2) = num 3 ∧ ratioVal (num 7) (num 0) = num 7 := by
  refine ⟨by norm_num, ?_, (ratio_zero_followers_no_div (num 7) 6 2 "t").1⟩
  rw [(ratio_zero_followers_no_div (num 7) 6 2 "t").2.2 (by norm_num)]
  norm_num

/-- C6. `generateMessage` with the random index injected: below
1000 it returns the fixed "not for you" string whatever the index, and
from 1000 on it returns exactly the template selected by the index,
each interpolating the thousands-grouped count — never any other
string. -/
theorem generateMessage_templates (n : ℕ) (idx : Fin 5) :
    (n < 1000 →
      generateMessage (num n) idx = "You seem normal. This tool isn't for you.") ∧
    (1000 ≤ n →
      generateMessage (num n) idx =
        ["Following " ++ jsToLocaleString (num n) ++
            " accounts? That's not networking, that's hoarding.",
          jsToLocaleString (num n) ++ " follows. Do you even remember who they are?",
          "With " ++ jsToLocaleString (num n) ++ " follows, your feed must be pure noise.",
          jsToLocaleString (num n) ++ ". That's not a following list, that's a phone book.",
          "Imagine clicking follow " ++ jsToLocaleString (num n) ++
            " times. The dedication to mediocrity."].get ⟨idx.1, idx.2⟩) := by
  constructor
  · intro h
    have hb : jsLt (num n) (num THRESHOLDS.SUSPICIOUS) = true := by
      simp only [jsLt, THRESHOLDS, decide_eq_true_eq]
      exact_mod_cast h
    simp [generateMessage, hb]
  · intro h
    have hb : jsLt (num n) (num THRESHOLDS.SUSPICIOUS) = false := by
      simp only [jsLt, THRESHOLDS, decide_eq_false_iff_not, not_lt]
      exact_mod_cast h
    simp [generateMessage, hb]

/-- Witness for C6 at `following = 2000`, index 0: the interpolated
count carries the thousands separator. -/
theorem generateMessage_templates_witness :
    1000 ≤ 2000 ∧
      generateMessage (num (2000 : ℕ)) ⟨0, by norm_num⟩ =
        "Following 2,000 accounts? That's not networking, that's hoarding." := by
  refine ⟨by norm_num, ?_⟩
  rw [(generateMessage_templates 2000 ⟨0, by norm_num⟩).2 (by norm_num)]
  rfl

/-- C8. With fewer than two positional arguments the CLI prints
the usage text and exits with status 1; with two or more it prints the
report (header shown) and exits with status 0. -/
theorem cli_usage_exit (args : List String) (now : String) (idx : Fin 5) :
    (args.length < 2 → cli args now idx = (1, usageLines)) ∧
    (2 ≤ args.length →
      (cli args now idx).1 = 0 ∧
        (cli args now idx).2.take 4 =
          ["", sepLine, "MASS FOLLOW ANALYSIS REPORT", sepLine]) := by
  match args with
  | [] => exact ⟨fun _ => rfl, fun h => by simp at h⟩
  | [a] => exact ⟨fun _ => rfl, fun h => by simp at h⟩
  | a0 :: a1 :: rest =>
    refine ⟨fun h => ?_, fun _ => ⟨rfl, rfl⟩⟩
    simp [List.length] at h
    omega

/-- Witness for C8: two arguments exit 0 with the report header, zero
arguments exit 1 with the usage text. -/
theorem cli_usage_exit_witness :
    2 ≤ (["47832", "523"] : List String).length ∧
      (cli ["47832", "523"] "t" ⟨0, by norm_num⟩).1 = 0 ∧
      cli [] "t" ⟨0, by norm_num⟩ = (1, usageLines) :=
  ⟨by norm_num,
    ((cli_usage_exit ["47832", "523"] "t" ⟨0, by norm_num⟩).2 (by norm_num)).1,
    (cli_usage_exit [] "t" ⟨0, by norm_num⟩).1 (by norm_num)⟩

/-- C10. For every numeric (non-NaN) following, `shame = false`
exactly when the verdict is NORMAL; on NaN the equivalence breaks:
the verdict is LEGENDARY_MASS_FOLLOWER yet `shame = false`, so the
CLI invoked with a non-numeric following prints no shame message
(15 report lines, no appended message). -/
theorem shame_verdict_invariant :
    (∀ (q : ℚ) (fw : JSNum) (now : String),
        ((analyzeRatio (num q) fw now).shame = false ↔
          (analyzeRatio (num q) fw now).verdict = "NORMAL")) ∧
    (∀ (fw : JSNum) (now : String),
        (analyzeRatio nan fw now).verdict = "LEGENDARY_MASS_FOLLOWER" ∧
          (analyzeRatio nan fw now).shame = false) ∧
    (∀ (now : String) (idx : Fin 5), ((cli ["abc", "5"] now idx).2).length = 15) := by
  refine ⟨fun q fw now => ?_, fun fw now => ⟨rfl, rfl⟩, fun now idx => rfl⟩
  rw [analyzeRatio_shame, analyzeRatio_verdict]
  by_cases h : q < 1000
  · simp [h, not_le.mpr h]
  · rw [if_neg h]
    simp only [decide_eq_false_iff_not, not_le, h, iff_false]
    split_ifs <;> decide

/-- Every character `Nat.digitChar` produces for a value below 10 is a
decimal digit. -/
lemma digitChar_isDigit (k : ℕ) (h : k < 10) : (Nat.digitChar k).isDigit = true := by
  interval_cases k <;> rfl

/-- Every character of the fuel-indexed digit loop is a decimal digit. -/
lemma natDigitsAux_isDigit :
    ∀ (fuel n : ℕ), ∀ c ∈ natDigitsAux fuel n, c.isDigit = true := by
  intro fuel
  induction fuel with
  | zero => intro n c hc; simp [natDigitsAux] at hc
  | succ fuel ih =>
    intro n c hc
    rw [natDigitsAux] at hc
    split at hc
    · next h =>
      rw [List.mem_singleton] at hc
      exact hc ▸ digitChar_isDigit n h
    · next h =>
      rcases List.mem_append.mp hc with h1 | h2
      · exact ih _ c h1
      · rw [List.mem_singleton] at h2
        exact h2 ▸ digitChar_isDigit _ (Nat.mod_lt _ (by norm_num))

/-- Every character of `natDigits n` is a decimal digit. -/
lemma natDigits_isDigit (n : ℕ) : ∀ c ∈ natDigits n, c.isDigit = true :=
  natDigitsAux_isDigit _ _

/-- The fixed layout `⟨digits⟩ '.' ⟨digit⟩ ⟨digit⟩` passes the
two-fraction-digit check. -/
lemma isTwoFrac_layout (A : List Char) (b c : Char)
    (hA : ∀ x ∈ A, x.isDigit = true)
    (hb : b.isDigit = true) (hc : c.isDigit = true) :
    isTwoFrac (String.mk (A ++ '.' :: [b, c])) = true := by
  have hrev : (A ++ '.' :: [b, c]).reverse = c :: b :: '.' :: A.reverse := by
    simp [List.reverse_append]
  show isTwoFrac ⟨A ++ '.' :: [b, c]⟩ = true
  unfold isTwoFrac
  rw [show (String.mk (A ++ '.' :: [b, c])).data = A ++ '.' :: [b, c] from rfl, hrev]
  simp [hb, hc]
  exact fun hm => absurd (hA _ hm) (by decide)

/-- Formatting a numeric value in `[0, 10^21)`: `toFixed(2)` takes the fixed
branch and prints exactly two fraction digits. -/
lemma toFixed2_twoFrac (r : ℚ) (h0 : 0 ≤ r)
    (hlt : r < 1000000000000000000000) :
    isTwoFrac (toFixed2 (num r)) = true := by
  have hnum : ¬ r.num < 0 := not_lt.mpr (Rat.num_nonneg.mpr h0)
  have hdpos : (0 : ℚ) < (r.den : ℚ) := by exact_mod_cast r.pos
  have hlt' : r.num < 1000000000000000000000 * (r.den : ℤ) := by
    rw [← Rat.num_div_den r, div_lt_iff₀ hdpos] at hlt
    exact_mod_cast hlt
  have hb' : ¬ (1000000000000000000000 * r.den ≤ r.num.toNat) := by omega
  simp only [toFixed2, hnum, if_false, hb', List.nil_append]
  exact isTwoFrac_layout _ _ _ (natDigits_isDigit _)
    (digitChar_isDigit _ (Nat.mod_lt _ (by norm_num)))
    (digitChar_isDigit _ (Nat.mod_lt _ (by norm_num)))

/-- C7 counterexample. At the non-negative input pair
`following = 10^21`, `followers = 0` the ratio value is `10^21`;
`toFixed(2)` then falls back to exponential `toString` per ECMA-262,
so the `ratio` field is `"1e+21"` — not a string with two digits
after a decimal point. -/
theorem ratio_two_frac_digits_cex :
    (analyzeRatio (num 1000000000000000000000) (num 0) "t").ratio = "1e+21" ∧
      isTwoFrac ((analyzeRatio (num 1000000000000000000000) (num 0) "t").ratio)
        = false := by
  exact ⟨by decide, by decide⟩

/-- C7 amended. For every non-negative pair whose computed ratio
value (`following / followers` when `followers > 0`, otherwise
`following`) is below `10^21`, the `ratio` field has exactly two
digits after the decimal point. -/
theorem ratio_two_frac_digits_amended (p q : ℚ) (now : String)
    (hp : 0 ≤ p) (hq : 0 ≤ q)
    (hlt : (if 0 < q then p / q else p) < 1000000000000000000000) :
    isTwoFrac ((analyzeRatio (num p) (num q) now).ratio) = true := by
  have hratio : (analyzeRatio (num p) (num q) now).ratio
      = toFixed2 (ratioVal (num p) (num q)) := rfl
  by_cases h0 : 0 < q
  · have hv : ratioVal (num p) (num q) = num (p / q) := by
      simp [ratioVal, jsGt, jsDiv, h0, ne_of_gt h0]
    rw [if_pos h0] at hlt
    rw [hratio, hv]
    exact toFixed2_twoFrac _ (div_nonneg hp hq) hlt
  · have hv : ratioVal (num p) (num q) = num p := by
      simp [ratioVal, jsGt, h0]
    rw [if_neg h0] at hlt
    rw [hratio, hv]
    exact toFixed2_twoFrac _ hp hlt

/-- Witness for the amended C7 at `following = 5`, `followers = 0`. -/
theorem ratio_two_frac_digits_amended_witness :
    (0 : ℚ) ≤ 5 ∧
      isTwoFrac ((analyzeRatio (num 5) (num 0) "t").ratio) = true :=
  ⟨by norm_num,
    ratio_two_frac_digits_amended 5 0 "t" (by norm_num) (by norm_num) (by norm_num)⟩
